import Mathlib

/-!
Verification of the study-stats and dashboard logic of the
virtual-study-group backend (`backend/routes/users.js`).

The two route handlers under study are shallowly embedded as pure Lean
functions:

  * `POST /study-time` (lines 123-178 of `users.js`): input validation,
    user lookup, stats/streak update, achievement unlocking, persistence.
  * `GET /dashboard` (lines 181-281): the two time-window queries over
    completed sessions and the per-user duration summation, plus the
    formatting of the response payload.

Timestamps are modelled as integers (milliseconds since the epoch, the
value of a JS `Date`); a calendar day is `dayMs` milliseconds long
(the embedding, like the source's arithmetic, treats days as uniform).
JavaScript `Math.floor` of an integer ratio is `Int.fdiv`.
-/

/-- Milliseconds in one day: `1000 * 60 * 60 * 24` from `users.js` line 143. -/
def dayMs : Int := 1000 * 60 * 60 * 24

/-- The `studyStats` sub-document of a user record.  `achievements` is a
mongo array of achievement identifier strings. -/
structure StudyStats where
  totalStudyTime : Int
  sessionsCompleted : Int
  streak : Int
  achievements : List String
deriving Repr, DecidableEq

/-- The slice of a user document used by the `/study-time` handler:
`studyStats` plus the top-level `lastStudyDate` (absent on a fresh user,
hence an `Option`). -/
structure User where
  studyStats : StudyStats
  lastStudyDate : Option Int
deriving Repr, DecidableEq

/-- `users.js` lines 137-138:
`totalStudyTime += duration; sessionsCompleted += 1`. -/
def bumpTotals (s : StudyStats) (duration : Int) : StudyStats :=
  { s with
    totalStudyTime := s.totalStudyTime + duration
    sessionsCompleted := s.sessionsCompleted + 1 }

/-- `users.js` lines 145-149: the streak branch on `diffDays`. -/
def applyStreak (s : StudyStats) (diffDays : Int) : StudyStats :=
  if diffDays = 1 then { s with streak := s.streak + 1 }
  else if diffDays > 1 then { s with streak := 1 }
  else s

/-- `users.js` lines 154-163: the achievement checks, in source order,
against the already-updated stats (`user.studyStats.achievements.includes`
is propositional membership here).  Returns the `achievements` array the
handler builds before pushing it. -/
def checkAchievements (s : StudyStats) : List String :=
  (if s.totalStudyTime ≥ 60 ∧ "first-hour" ∉ s.achievements
    then ["first-hour"] else []) ++
  (if s.streak ≥ 7 ∧ "week-streak" ∉ s.achievements
    then ["week-streak"] else []) ++
  (if s.sessionsCompleted ≥ 10 ∧ "session-master" ∉ s.achievements
    then ["session-master"] else [])

/-- The core of the `POST /study-time` handler (`users.js` lines 137-165),
after validation has passed and the user was found: bump
`totalStudyTime` and `sessionsCompleted`, apply the streak rule using
`diffDays = Math.floor((today - lastStudyDate) / dayMs)` with an absent
`lastStudyDate` read as `new Date(0)`, set `lastStudyDate = today`,
then collect newly unlocked achievements in the fixed check order
first-hour, week-streak, session-master and push them onto
`achievements`.  Returns the saved user and the `newAchievements`
array of the JSON response. -/
def updateStudyTime (user : User) (duration : Int) (today : Int) :
    User × List String :=
  let s1 : StudyStats := bumpTotals user.studyStats duration
  let lastStudyDate : Int := user.lastStudyDate.getD 0
  let diffDays : Int := Int.fdiv (today - lastStudyDate) dayMs
  let s2 : StudyStats := applyStreak s1 diffDays
  let newAch : List String := checkAchievements s2
  let s3 : StudyStats := { s2 with achievements := s2.achievements ++ newAch }
  (⟨s3, some today⟩, newAch)

/-- The request body's `duration` field as the express-validator sees it:
missing, present but not an integer, or an integer value. -/
inductive DurationField where
  | missing
  | nonNumeric
  | int (n : Int)
deriving Repr, DecidableEq

/-- `body('duration').isInt({ min: 1 })` (`users.js` line 124): the
validated integer when the field is an integer `≥ 1`, `none` otherwise. -/
def validDuration : DurationField → Option Int
  | .int n => if n ≥ 1 then some n else none
  | _ => none

/-- Outcome of one `POST /study-time` request. -/
inductive StudyTimeResult where
  /-- HTTP 400: `validationResult` non-empty (`users.js` lines 128-131). -/
  | validationError
  /-- HTTP 500: the catch-all at lines 174-177 (in particular, reached
  when `User.findById` returns `null` and `user.studyStats` throws). -/
  | serverError
  /-- HTTP 200 with the saved stats and the `newAchievements` list. -/
  | success (user : User) (newAchievements : List String)
deriving Repr, DecidableEq

/-- HTTP status code of each `POST /study-time` outcome. -/
def StudyTimeResult.statusCode : StudyTimeResult → Nat
  | .validationError => 400
  | .serverError => 500
  | .success _ _ => 200

/-- The whole `POST /study-time` endpoint (`users.js` lines 123-178) over a
single-user store: validate the body, look the user up (a `none` store
models `findById` returning `null`, upon which `user.studyStats.…`
throws and the catch block answers 500), update, save.  The second
component is the store after the request — unchanged unless the handler
reached `user.save()`. -/
def studyTimeEndpoint (store : Option User) (d : DurationField)
    (today : Int) : StudyTimeResult × Option User :=
  match validDuration d with
  | none => (.validationError, store)
  | some duration =>
    match store with
    | none => (.serverError, none)
    | some u =>
      let r := updateStudyTime u duration today
      (.success r.1 r.2, some r.1)

/-- One entry of a session document's `participants` array; `duration`
may be absent (the source reads it as `participant?.duration || 0`). -/
structure Participant where
  user : Nat
  duration : Option Int
deriving Repr, DecidableEq

/-- A study-session document as the dashboard's completed-session queries
see it: its `participants`, its `actualEnd` timestamp and its `status`. -/
structure SessionDoc where
  id : Nat
  participants : List Participant
  actualEnd : Int
  status : String
deriving Repr, DecidableEq

/-- JavaScript `x || dflt` on an optional string: `null`/`undefined` and
the empty string are falsy. -/
def jsOrString (x : Option String) (dflt : String) : String :=
  match x with
  | some s => if s = "" then dflt else s
  | none => dflt

/-- The shape shared by the dashboard's two completed-session queries
(`users.js` lines 216-220 and 233-237): sessions where the caller is a
participant, `actualEnd` lies in `[lo, hi)` and `status = 'completed'`. -/
def completedInWindow (userId : Nat) (lo hi : Int)
    (store : List SessionDoc) : List SessionDoc :=
  store.filter fun s =>
    (s.participants.any fun p => p.user == userId) &&
    (decide (lo ≤ s.actualEnd) && decide (s.actualEnd < hi)) &&
    (s.status == "completed")

/-- The body of the `reduce` at lines 222-225 / 239-242: the duration of
the first participant entry matching the caller, `0` when the entry or
its `duration` is absent (`participant?.duration || 0`; a present
duration of `0` also yields `0`, so `Option.getD 0` is exact). -/
def participantDuration (userId : Nat) (s : SessionDoc) : Int :=
  match s.participants.find? (fun p => p.user == userId) with
  | some p => p.duration.getD 0
  | none => 0

/-- The `reduce((total, session) => total + …, 0)` itself. -/
def progressSum (userId : Nat) (sessions : List SessionDoc) : Int :=
  sessions.foldl (fun total s => total + participantDuration userId s) 0

/-- A group document as the recent-groups query returns it;
`memberCount` may be absent. -/
structure GroupDoc where
  id : Nat
  name : String
  subject : String
  memberCount : Option Int
  updatedAt : Int
deriving Repr, DecidableEq

/-- One formatted entry of `dashboardData.recentGroups`. -/
structure RecentGroup where
  id : Nat
  name : String
  subject : String
  memberCount : Int
  lastActivity : Int
deriving Repr, DecidableEq

/-- `recentGroups.map(...)` at lines 245-251 (`group.memberCount || 0`
coincides with `Option.getD 0` because the default is `0`). -/
def formatGroup (g : GroupDoc) : RecentGroup :=
  ⟨g.id, g.name, g.subject, g.memberCount.getD 0, g.updatedAt⟩

/-- The populated `host` sub-document of an upcoming session. -/
structure HostDoc where
  firstName : Option String
  lastName : Option String
deriving Repr, DecidableEq

/-- An upcoming-session document as the query returns it (`group` and
`host` populated, either possibly missing). -/
structure UpcomingDoc where
  id : Nat
  title : String
  groupName : Option String
  scheduledStart : Int
  host : Option HostDoc
deriving Repr, DecidableEq

/-- One formatted entry of `dashboardData.upcomingSessions`. -/
structure UpcomingSession where
  id : Nat
  title : String
  groupName : String
  time : Int
  host : String
deriving Repr, DecidableEq

/-- `upcomingSessions.map(...)` at lines 254-260: missing (or empty)
group name becomes `'Unknown Group'`; the host display name is the
trimmed concatenation of first and last name, each `|| ''`. -/
def formatUpcoming (s : UpcomingDoc) : UpcomingSession :=
  { id := s.id
    title := s.title
    groupName := jsOrString s.groupName "Unknown Group"
    time := s.scheduledStart
    host := (((s.host.bind HostDoc.firstName).getD "") ++ " " ++
             ((s.host.bind HostDoc.lastName).getD "")).trim }

/-- The `dashboardData` payload of `GET /dashboard` (lines 262-274), with
the `stats` sub-object flattened into the four fields it copies. -/
structure DashboardData where
  recentGroups : List RecentGroup
  upcomingSessions : List UpcomingSession
  totalStudyTime : Int
  sessionsCompleted : Int
  currentStreak : Int
  achievements : List String
  todayProgress : Int
  weekProgress : Int
  weeklyGoal : Int
deriving Repr, DecidableEq

/-- The `GET /dashboard` handler (`users.js` lines 181-276) as a pure
function of its query results.  `recentGroups` and `upcoming` are the
results of the two delegated queries (limits and ordering applied by the
store); the two completed-session queries are computed here from
`sessionStore`, the collection of session documents.  `todayMidnight` is
`new Date()` with `setHours(0,0,0,0)` applied and `dayOfWeek` is
`today.getDay()` (so `0 ≤ dayOfWeek ≤ 6`); `setDate` day stepping is
uniform-day arithmetic in this model.  The handler never raises on empty
query results: every branch below is total. -/
def buildDashboard (userId : Nat) (stats : Option StudyStats)
    (recentGroups : List GroupDoc) (upcoming : List UpcomingDoc)
    (sessionStore : List SessionDoc)
    (todayMidnight : Int) (dayOfWeek : Int) : DashboardData :=
  let tomorrow := todayMidnight + dayMs
  let todaysSessions := completedInWindow userId todayMidnight tomorrow sessionStore
  let todayProgress := progressSum userId todaysSessions
  let weekStart := todayMidnight - dayOfWeek * dayMs
  let weekEnd := weekStart + 7 * dayMs
  let weekSessions := completedInWindow userId weekStart weekEnd sessionStore
  let weekProgress := progressSum userId weekSessions
  { recentGroups := recentGroups.map formatGroup
    upcomingSessions := upcoming.map formatUpcoming
    totalStudyTime := (stats.map StudyStats.totalStudyTime).getD 0
    sessionsCompleted := (stats.map StudyStats.sessionsCompleted).getD 0
    currentStreak := (stats.map StudyStats.streak).getD 0
    achievements := (stats.map StudyStats.achievements).getD []
    todayProgress := todayProgress
    weekProgress := weekProgress
    weeklyGoal := 300 }

/-- The stats value after steps 1-3 of the handler (totals bumped, streak
branch applied), before achievements are pushed: a named abbreviation
for the `s2` intermediate of `updateStudyTime`. -/
def postStats (u : User) (d t : Int) : StudyStats :=
  applyStreak (bumpTotals u.studyStats d) ((t - u.lastStudyDate.getD 0).fdiv dayMs)

theorem applyStreak_totalStudyTime (s : StudyStats) (dd : Int) :
    (applyStreak s dd).totalStudyTime = s.totalStudyTime := by
  unfold applyStreak; split_ifs <;> rfl

theorem applyStreak_sessionsCompleted (s : StudyStats) (dd : Int) :
    (applyStreak s dd).sessionsCompleted = s.sessionsCompleted := by
  unfold applyStreak; split_ifs <;> rfl

theorem applyStreak_achievements (s : StudyStats) (dd : Int) :
    (applyStreak s dd).achievements = s.achievements := by
  unfold applyStreak; split_ifs <;> rfl

theorem applyStreak_streak (s : StudyStats) (dd : Int) :
    (applyStreak s dd).streak =
      if dd = 1 then s.streak + 1 else if 1 < dd then 1 else s.streak := by
  unfold applyStreak; split_ifs <;> rfl

theorem postStats_totalStudyTime (u : User) (d t : Int) :
    (postStats u d t).totalStudyTime = u.studyStats.totalStudyTime + d := by
  unfold postStats; rw [applyStreak_totalStudyTime]; rfl

theorem postStats_sessionsCompleted (u : User) (d t : Int) :
    (postStats u d t).sessionsCompleted = u.studyStats.sessionsCompleted + 1 := by
  unfold postStats; rw [applyStreak_sessionsCompleted]; rfl

theorem postStats_achievements (u : User) (d t : Int) :
    (postStats u d t).achievements = u.studyStats.achievements := by
  unfold postStats; rw [applyStreak_achievements]; rfl

theorem postStats_streak (u : User) (d t : Int) :
    (postStats u d t).streak =
      if (t - u.lastStudyDate.getD 0).fdiv dayMs = 1 then u.studyStats.streak + 1
      else if 1 < (t - u.lastStudyDate.getD 0).fdiv dayMs then 1
      else u.studyStats.streak := by
  unfold postStats; rw [applyStreak_streak]; rfl

theorem updateStudyTime_snd (u : User) (d t : Int) :
    (updateStudyTime u d t).2 = checkAchievements (postStats u d t) := rfl

theorem updateStudyTime_fst_streak (u : User) (d t : Int) :
    (updateStudyTime u d t).1.studyStats.streak = (postStats u d t).streak := rfl

theorem updateStudyTime_fst_totalStudyTime (u : User) (d t : Int) :
    (updateStudyTime u d t).1.studyStats.totalStudyTime
      = u.studyStats.totalStudyTime + d := by
  show (postStats u d t).totalStudyTime = _
  exact postStats_totalStudyTime u d t

theorem updateStudyTime_fst_sessionsCompleted (u : User) (d t : Int) :
    (updateStudyTime u d t).1.studyStats.sessionsCompleted
      = u.studyStats.sessionsCompleted + 1 := by
  show (postStats u d t).sessionsCompleted = _
  exact postStats_sessionsCompleted u d t

theorem updateStudyTime_fst_lastStudyDate (u : User) (d t : Int) :
    (updateStudyTime u d t).1.lastStudyDate = some t := rfl

theorem updateStudyTime_fst_achievements (u : User) (d t : Int) :
    (updateStudyTime u d t).1.studyStats.achievements
      = u.studyStats.achievements ++ (updateStudyTime u d t).2 := by
  show (postStats u d t).achievements ++ checkAchievements (postStats u d t) = _
  rw [postStats_achievements, updateStudyTime_snd]

theorem mem_checkAchievements_firstHour (s : StudyStats) :
    "first-hour" ∈ checkAchievements s ↔
      s.totalStudyTime ≥ 60 ∧ "first-hour" ∉ s.achievements := by
  unfold checkAchievements
  split_ifs <;> simp_all

theorem mem_checkAchievements_weekStreak (s : StudyStats) :
    "week-streak" ∈ checkAchievements s ↔
      s.streak ≥ 7 ∧ "week-streak" ∉ s.achievements := by
  unfold checkAchievements
  split_ifs <;> simp_all

theorem mem_checkAchievements_sessionMaster (s : StudyStats) :
    "session-master" ∈ checkAchievements s ↔
      s.sessionsCompleted ≥ 10 ∧ "session-master" ∉ s.achievements := by
  unfold checkAchievements
  split_ifs <;> simp_all

theorem mem_checkAchievements_not_prior (s : StudyStats) (id : String)
    (h : id ∈ checkAchievements s) : id ∉ s.achievements := by
  simp only [checkAchievements, List.mem_append] at h
  rcases h with (h | h) | h <;>
    · split at h
      · rename_i hc
        simp only [List.mem_singleton] at h
        subst h
        exact hc.2
      · simp at h

theorem checkAchievements_sublist (s : StudyStats) :
    (checkAchievements s).Sublist ["first-hour", "week-streak", "session-master"] := by
  unfold checkAchievements
  split_ifs <;> decide

/-- C1: for every stats state and every integer `durationMinutes ≥ 1`,
`recordStudyTime` (the `POST /study-time` handler core) increases
`totalStudyTime` by exactly `durationMinutes` and `sessionsCompleted` by
exactly 1; the two increments hold for every streak and achievement
state, i.e. they are independent of that logic. -/
theorem recordStudyTime_increments (u : User) (d t : Int) (_hd : 1 ≤ d) :
    (updateStudyTime u d t).1.studyStats.totalStudyTime
        = u.studyStats.totalStudyTime + d ∧
    (updateStudyTime u d t).1.studyStats.sessionsCompleted
        = u.studyStats.sessionsCompleted + 1 :=
  ⟨updateStudyTime_fst_totalStudyTime u d t,
   updateStudyTime_fst_sessionsCompleted u d t⟩

theorem recordStudyTime_increments_witness :
    (1 : Int) ≤ 10 ∧
    ((updateStudyTime ⟨⟨55, 9, 6, []⟩, some 0⟩ 10 dayMs).1.studyStats.totalStudyTime
        = 55 + 10 ∧
     (updateStudyTime ⟨⟨55, 9, 6, []⟩, some 0⟩ 10 dayMs).1.studyStats.sessionsCompleted
        = 9 + 1) :=
  ⟨by norm_num,
   recordStudyTime_increments ⟨⟨55, 9, 6, []⟩, some 0⟩ 10 dayMs (by norm_num)⟩

/-- C2: the streak update follows the `diffDays` rule with
`diffDays = ⌊(today − lastStudyDate) / 1 day⌋` and an absent
`lastStudyDate` read as the epoch (which forces `diffDays > 1` once
`today` is at least two days past the epoch): `diffDays = 1` increments
the streak by 1, `diffDays > 1` resets it to 1, `diffDays = 0` leaves it
unchanged; afterwards `lastStudyDate` is set to `today`. -/
theorem recordStudyTime_streak_rule (u : User) (d t : Int) :
    ((t - u.lastStudyDate.getD 0).fdiv dayMs = 1 →
       (updateStudyTime u d t).1.studyStats.streak = u.studyStats.streak + 1) ∧
    (1 < (t - u.lastStudyDate.getD 0).fdiv dayMs →
       (updateStudyTime u d t).1.studyStats.streak = 1) ∧
    ((t - u.lastStudyDate.getD 0).fdiv dayMs = 0 →
       (updateStudyTime u d t).1.studyStats.streak = u.studyStats.streak) ∧
    (updateStudyTime u d t).1.lastStudyDate = some t ∧
    (u.lastStudyDate = none → 2 * dayMs ≤ t →
       1 < (t - u.lastStudyDate.getD 0).fdiv dayMs) := by
  refine ⟨fun h => ?_, fun h => ?_, fun h => ?_,
    updateStudyTime_fst_lastStudyDate u d t, fun h1 h2 => ?_⟩
  · rw [updateStudyTime_fst_streak, postStats_streak, if_pos h]
  · rw [updateStudyTime_fst_streak, postStats_streak, if_neg (by omega), if_pos h]
  · rw [updateStudyTime_fst_streak, postStats_streak, if_neg (by omega),
      if_neg (by omega)]
  · rw [h1]
    simp only [Option.getD_none, sub_zero]
    have h2' : (2 : Int) ≤ t.fdiv dayMs := by
      rw [Int.fdiv_eq_ediv _ (by norm_num [dayMs]),
        Int.le_ediv_iff_mul_le (by norm_num [dayMs])]
      simp only [dayMs] at h2 ⊢
      omega
    omega

theorem recordStudyTime_streak_rule_witness :
    (updateStudyTime ⟨⟨0, 0, 3, []⟩, some 0⟩ 5 dayMs).1.studyStats.streak = 3 + 1 ∧
    (updateStudyTime ⟨⟨0, 0, 3, []⟩, some 0⟩ 5 dayMs).1.lastStudyDate = some dayMs :=
  ⟨(recordStudyTime_streak_rule ⟨⟨0, 0, 3, []⟩, some 0⟩ 5 dayMs).1 (by decide),
   (recordStudyTime_streak_rule ⟨⟨0, 0, 3, []⟩, some 0⟩ 5 dayMs).2.2.2.1⟩

/-- C3 counterexample: `lastStudyDate` at 23:00 of epoch day 0 and a call
at 01:00 of epoch day 1 are one calendar day apart, yet the handler
leaves the streak at 6 instead of incrementing it to 7: the code
compares elapsed milliseconds (here 2 hours, so `diffDays = 0`), not
calendar days. -/
theorem streak_calendar_gap_counterexample :
    ((90000000 : Int).fdiv dayMs - (82800000 : Int).fdiv dayMs = 1) ∧
    (updateStudyTime ⟨⟨0, 0, 6, []⟩, some 82800000⟩ 10 90000000).1.studyStats.streak
      = 6 ∧
    ((6 : Int) ≠ 6 + 1) := by decide

/-- C3 amended: the streak follows the calendar-day gap rule only when
the elapsed-millisecond floor agrees with it; in particular when both
timestamps fall exactly at midnight a gap of 1 calendar day increments
the streak by 1, a gap greater than 1 resets it to 1, and the same day
leaves it unchanged. -/
theorem streak_calendar_gap_at_midnight (u : User) (d a b : Int)
    (hlast : u.lastStudyDate = some (a * dayMs)) :
    (b - a = 1 → (updateStudyTime u d (b * dayMs)).1.studyStats.streak
        = u.studyStats.streak + 1) ∧
    (1 < b - a → (updateStudyTime u d (b * dayMs)).1.studyStats.streak = 1) ∧
    (b = a → (updateStudyTime u d (b * dayMs)).1.studyStats.streak
        = u.studyStats.streak) := by
  have hdd : (b * dayMs - u.lastStudyDate.getD 0).fdiv dayMs = b - a := by
    rw [hlast]
    simp only [Option.getD_some]
    rw [← Int.sub_mul, Int.mul_fdiv_cancel _ (by norm_num [dayMs])]
  refine ⟨fun h => ?_, fun h => ?_, fun h => ?_⟩ <;>
    rw [updateStudyTime_fst_streak, postStats_streak, hdd]
  · rw [if_pos h]
  · rw [if_neg (by omega), if_pos h]
  · rw [if_neg (by omega), if_neg (by omega)]

theorem streak_calendar_gap_at_midnight_witness :
    (updateStudyTime ⟨⟨0, 0, 5, []⟩, some (3 * dayMs)⟩ 5 (4 * dayMs)).1.studyStats.streak
      = 5 + 1 :=
  (streak_calendar_gap_at_midnight ⟨⟨0, 0, 5, []⟩, some (3 * dayMs)⟩ 5 3 4 rfl).1
    (by decide)

/-- C4: on the state `totalStudyTime = 55`, `sessionsCompleted = 9`,
`streak = 6`, no achievements, with `lastStudyDate` exactly one day
before `today`, recording 10 minutes yields totals 65/10/7 and unlocks
`["first-hour", "week-streak", "session-master"]` in that order; in
general each threshold is an independent check against the post-update
values and the reported list is a sublist of the fixed check order. -/
theorem recordStudyTime_achievement_scenario (today : Int) (u : User) (d t : Int) :
    ((updateStudyTime ⟨⟨55, 9, 6, []⟩, some (today - dayMs)⟩ 10 today).1.studyStats.totalStudyTime
        = 65 ∧
     (updateStudyTime ⟨⟨55, 9, 6, []⟩, some (today - dayMs)⟩ 10 today).1.studyStats.sessionsCompleted
        = 10 ∧
     (updateStudyTime ⟨⟨55, 9, 6, []⟩, some (today - dayMs)⟩ 10 today).1.studyStats.streak
        = 7 ∧
     (updateStudyTime ⟨⟨55, 9, 6, []⟩, some (today - dayMs)⟩ 10 today).2
        = ["first-hour", "week-streak", "session-master"]) ∧
    (("first-hour" ∈ (updateStudyTime u d t).2 ↔
        u.studyStats.totalStudyTime + d ≥ 60 ∧
        "first-hour" ∉ u.studyStats.achievements) ∧
     ("week-streak" ∈ (updateStudyTime u d t).2 ↔
        (updateStudyTime u d t).1.studyStats.streak ≥ 7 ∧
        "week-streak" ∉ u.studyStats.achievements) ∧
     ("session-master" ∈ (updateStudyTime u d t).2 ↔
        u.studyStats.sessionsCompleted + 1 ≥ 10 ∧
        "session-master" ∉ u.studyStats.achievements)) ∧
    ((updateStudyTime u d t).2).Sublist
      ["first-hour", "week-streak", "session-master"] := by
  have hpost_streak :
      (postStats ⟨⟨55, 9, 6, []⟩, some (today - dayMs)⟩ 10 today).streak = 7 := by
    rw [postStats_streak]
    simp only [Option.getD_some, sub_sub_cancel]
    rw [if_pos (by decide)]
    norm_num
  refine ⟨⟨?_, ?_, ?_, ?_⟩, ⟨?_, ?_, ?_⟩, ?_⟩
  · rw [updateStudyTime_fst_totalStudyTime]; norm_num
  · rw [updateStudyTime_fst_sessionsCompleted]; norm_num
  · rw [updateStudyTime_fst_streak]; exact hpost_streak
  · rw [updateStudyTime_snd]
    simp only [checkAchievements, hpost_streak, postStats_totalStudyTime,
      postStats_sessionsCompleted, postStats_achievements]
    norm_num
  · rw [updateStudyTime_snd, mem_checkAchievements_firstHour,
      postStats_totalStudyTime, postStats_achievements]
  · rw [updateStudyTime_snd, mem_checkAchievements_weekStreak,
      postStats_achievements, updateStudyTime_fst_streak]
  · rw [updateStudyTime_snd, mem_checkAchievements_sessionMaster,
      postStats_sessionsCompleted, postStats_achievements]
  · rw [updateStudyTime_snd]
    exact checkAchievements_sublist _

/-- C5: achievement unlocking is idempotent. -/
theorem recordStudyTime_achievement_idempotent (u : User) (d t d2 t2 : Int)
    (id : String) :
    (id ∈ u.studyStats.achievements →
       id ∉ (updateStudyTime u d t).2 ∧
       (updateStudyTime u d t).1.studyStats.achievements.count id
          = u.studyStats.achievements.count id) ∧
    (u.studyStats.achievements.Nodup →
       (updateStudyTime u d t).1.studyStats.achievements.Nodup) ∧
    (id ∈ (updateStudyTime u d t).2 →
       id ∉ (updateStudyTime (updateStudyTime u d t).1 d2 t2).2) := by
  have hnot : ∀ a : String, a ∈ (updateStudyTime u d t).2 →
      a ∉ u.studyStats.achievements := by
    intro a ha
    rw [updateStudyTime_snd] at ha
    have := mem_checkAchievements_not_prior _ _ ha
    rwa [postStats_achievements] at this
  refine ⟨fun hpre => ⟨fun hmem => hnot id hmem hpre, ?_⟩, fun hnd => ?_, fun h1 => ?_⟩
  · rw [updateStudyTime_fst_achievements, List.count_append,
      List.count_eq_zero.mpr (fun hmem => hnot id hmem hpre), add_zero]
  · rw [updateStudyTime_fst_achievements, List.nodup_append]
    refine ⟨hnd, ?_, ?_⟩
    · rw [updateStudyTime_snd]
      exact (checkAchievements_sublist _).nodup (by decide)
    · intro a ha hb
      exact hnot a hb ha
  · have h2 : id ∈ (updateStudyTime u d t).1.studyStats.achievements := by
      rw [updateStudyTime_fst_achievements]
      exact List.mem_append_right _ h1
    intro hmem
    rw [updateStudyTime_snd] at hmem
    have := mem_checkAchievements_not_prior _ _ hmem
    rw [postStats_achievements] at this
    exact this h2

theorem recordStudyTime_achievement_idempotent_witness :
    "first-hour" ∉
      (updateStudyTime ⟨⟨120, 0, 0, ["first-hour"]⟩, some 0⟩ 30 dayMs).2 :=
  ((recordStudyTime_achievement_idempotent
      ⟨⟨120, 0, 0, ["first-hour"]⟩, some 0⟩ 30 dayMs 30 (2 * dayMs)
      "first-hour").1 (by decide)).1

/-- C6: a request whose `duration` is missing, non-numeric, or below 1 is
rejected by the validator with a 400 before the handler touches the
user record: the store after the request is exactly the store before. -/
theorem studyTime_invalid_input (store : Option User) (d : DurationField)
    (t : Int)
    (h : d = .missing ∨ d = .nonNumeric ∨ ∃ n, d = .int n ∧ n < 1) :
    studyTimeEndpoint store d t = (.validationError, store) := by
  have hv : validDuration d = none := by
    rcases h with h | h | ⟨n, h, hn⟩ <;> subst h <;>
      simp only [validDuration]
    rw [if_neg (by omega)]
  simp only [studyTimeEndpoint, hv]

theorem studyTime_invalid_input_witness :
    studyTimeEndpoint (some ⟨⟨55, 9, 6, []⟩, some 0⟩) (.int 0) dayMs
      = (.validationError, some ⟨⟨55, 9, 6, []⟩, some 0⟩) :=
  studyTime_invalid_input (some ⟨⟨55, 9, 6, []⟩, some 0⟩) (.int 0) dayMs
    (Or.inr (Or.inr ⟨0, rfl, by norm_num⟩))

/-- C7 counterexample: with a valid duration but no user record, the
handler answers HTTP 500 (the `user.studyStats` access throws into the
catch-all), not a 404 NotFound as the claim states. -/
theorem studyTime_missing_user_counterexample :
    (studyTimeEndpoint none (.int 5) 0).1 = .serverError ∧
    ((studyTimeEndpoint none (.int 5) 0).1).statusCode = 500 ∧
    (500 : Nat) ≠ 404 := by decide

/-- C7 amended: when the referenced user record does not exist, the
operation fails — surfaced to the caller as a generic HTTP 500 server
error (not a 404 NotFound) — and no update is applied to any stored
state. -/
theorem studyTime_missing_user (d : DurationField) (t : Int)
    (h : validDuration d ≠ none) :
    studyTimeEndpoint none d t = (.serverError, none) ∧
    ((studyTimeEndpoint none d t).1).statusCode = 500 := by
  obtain ⟨n, hn⟩ := Option.ne_none_iff_exists'.mp h
  refine ⟨?_, ?_⟩ <;> simp only [studyTimeEndpoint, hn, StudyTimeResult.statusCode]

theorem studyTime_missing_user_witness :
    studyTimeEndpoint none (.int 7) dayMs = (.serverError, none) :=
  (studyTime_missing_user (.int 7) dayMs (by decide)).1

theorem progressSum_foldl_init (userId : Nat) (l : List SessionDoc) (init : Int) :
    l.foldl (fun total s => total + participantDuration userId s) init
      = init + (l.map (participantDuration userId)).sum := by
  induction l generalizing init with
  | nil => simp
  | cons a l ih => simp [List.foldl_cons, ih, add_assoc]

theorem progressSum_eq_sum (userId : Nat) (l : List SessionDoc) :
    progressSum userId l = (l.map (participantDuration userId)).sum := by
  rw [progressSum, progressSum_foldl_init, zero_add]

theorem participantDuration_eq_zero_of_no_match (userId : Nat) (s : SessionDoc)
    (h : ∀ p ∈ s.participants, p.user ≠ userId) :
    participantDuration userId s = 0 := by
  rw [participantDuration]
  cases hf : s.participants.find? (fun p => p.user == userId) with
  | none => rfl
  | some p =>
    have hbeq := List.find?_some hf
    have hp := List.mem_of_find?_eq_some hf
    exact absurd (by simpa using hbeq) (h p hp)

theorem participantDuration_nonneg (userId : Nat) (s : SessionDoc)
    (h : ∀ p ∈ s.participants, 0 ≤ p.duration.getD 0) :
    0 ≤ participantDuration userId s := by
  rw [participantDuration]
  cases hf : s.participants.find? (fun p => p.user == userId) with
  | none => exact le_refl 0
  | some p => exact h p (List.mem_of_find?_eq_some hf)

theorem sum_map_filter_mono (f : SessionDoc → Int) (p q : SessionDoc → Bool)
    (l : List SessionDoc)
    (himp : ∀ s, p s = true → q s = true)
    (hnn : ∀ s ∈ l, 0 ≤ f s) :
    ((l.filter p).map f).sum ≤ ((l.filter q).map f).sum := by
  induction l with
  | nil => simp
  | cons a l ih =>
    have ha : 0 ≤ f a := hnn a (List.mem_cons_self a l)
    have hl : ∀ s ∈ l, 0 ≤ f s := fun s hs => hnn s (List.mem_cons_of_mem a hs)
    by_cases hp : p a
    · rw [List.filter_cons_of_pos hp, List.filter_cons_of_pos (himp a hp)]
      simp only [List.map_cons, List.sum_cons]
      exact add_le_add_left (ih hl) _
    · rw [List.filter_cons_of_neg hp]
      by_cases hq : q a
      · rw [List.filter_cons_of_pos hq]
        simp only [List.map_cons, List.sum_cons]
        exact le_trans (ih hl) (le_add_of_nonneg_left ha)
      · rw [List.filter_cons_of_neg hq]
        exact ih hl

/-- C8: with all queries returning zero records, the dashboard build
succeeds (the function is total) and returns empty `recentGroups` and
`upcomingSessions` and zero `todayProgress` and `weekProgress`. -/
theorem buildDashboard_empty (userId : Nat) (stats : Option StudyStats)
    (t dw : Int) :
    (buildDashboard userId stats [] [] [] t dw).recentGroups = [] ∧
    (buildDashboard userId stats [] [] [] t dw).upcomingSessions = [] ∧
    (buildDashboard userId stats [] [] [] t dw).todayProgress = 0 ∧
    (buildDashboard userId stats [] [] [] t dw).weekProgress = 0 :=
  ⟨rfl, rfl, rfl, rfl⟩

/-- C9: `todayProgress` and `weekProgress` are each the sum, over the
sessions returned by the corresponding window query, of the duration of
the participant entry matching the caller; a session with no matching
entry contributes 0; `weeklyGoal` is the constant 300.  Concretely, two
completed sessions today with durations 20 and 15 plus one completed
yesterday with duration 30 (all inside the current week) give
`todayProgress = 35` and `weekProgress = 65`. -/
theorem dashboard_progress_sums (userId : Nat) (stats : Option StudyStats)
    (gs : List GroupDoc) (ups : List UpcomingDoc) (store : List SessionDoc)
    (t dw : Int) (s0 : SessionDoc)
    (h0 : ∀ p ∈ s0.participants, p.user ≠ userId) :
    ((buildDashboard userId stats gs ups store t dw).todayProgress
        = ((completedInWindow userId t (t + dayMs) store).map
            (participantDuration userId)).sum ∧
     (buildDashboard userId stats gs ups store t dw).weekProgress
        = ((completedInWindow userId (t - dw * dayMs) (t - dw * dayMs + 7 * dayMs)
            store).map (participantDuration userId)).sum ∧
     (buildDashboard userId stats gs ups store t dw).weeklyGoal = 300) ∧
    participantDuration userId s0 = 0 ∧
    ((buildDashboard 1 none [] []
        [⟨1, [⟨1, some 20⟩], 10 * dayMs + 100, "completed"⟩,
         ⟨2, [⟨2, some 99⟩, ⟨1, some 15⟩], 10 * dayMs + 200, "completed"⟩,
         ⟨3, [⟨1, some 30⟩], 9 * dayMs + 50, "completed"⟩]
        (10 * dayMs) 3).todayProgress = 35 ∧
     (buildDashboard 1 none [] []
        [⟨1, [⟨1, some 20⟩], 10 * dayMs + 100, "completed"⟩,
         ⟨2, [⟨2, some 99⟩, ⟨1, some 15⟩], 10 * dayMs + 200, "completed"⟩,
         ⟨3, [⟨1, some 30⟩], 9 * dayMs + 50, "completed"⟩]
        (10 * dayMs) 3).weekProgress = 65) := by
  refine ⟨⟨?_, ?_, rfl⟩, participantDuration_eq_zero_of_no_match userId s0 h0,
    by decide, by decide⟩
  · show progressSum userId (completedInWindow userId t (t + dayMs) store) = _
    exact progressSum_eq_sum _ _
  · show progressSum userId
      (completedInWindow userId (t - dw * dayMs) (t - dw * dayMs + 7 * dayMs) store) = _
    exact progressSum_eq_sum _ _

theorem dashboard_progress_sums_witness :
    participantDuration 2 ⟨7, [⟨3, some 5⟩], 0, "completed"⟩ = 0 :=
  (dashboard_progress_sums 2 none [] [] [] 0 0
    ⟨7, [⟨3, some 5⟩], 0, "completed"⟩ (by decide)).2.1

/-- C10: the today window `[todayMidnight, todayMidnight + 1 day)` is
contained in the week window `[weekStart, weekStart + 7 days)` computed
from the same day (`weekStart = todayMidnight − dayOfWeek · 1 day`,
`0 ≤ dayOfWeek ≤ 6`), so over any session store with non-negative
durations `todayProgress ≤ weekProgress`. -/
theorem todayProgress_le_weekProgress (userId : Nat) (stats : Option StudyStats)
    (gs : List GroupDoc) (ups : List UpcomingDoc) (store : List SessionDoc)
    (t dw : Int) (hdw0 : 0 ≤ dw) (hdw6 : dw ≤ 6)
    (hdur : ∀ s ∈ store, ∀ p ∈ s.participants, 0 ≤ p.duration.getD 0) :
    (t - dw * dayMs ≤ t ∧ t + dayMs ≤ t - dw * dayMs + 7 * dayMs) ∧
    (buildDashboard userId stats gs ups store t dw).todayProgress
      ≤ (buildDashboard userId stats gs ups store t dw).weekProgress := by
  constructor
  · constructor <;> (simp only [dayMs]; omega)
  · show progressSum userId (completedInWindow userId t (t + dayMs) store)
      ≤ progressSum userId
          (completedInWindow userId (t - dw * dayMs) (t - dw * dayMs + 7 * dayMs) store)
    rw [progressSum_eq_sum, progressSum_eq_sum, completedInWindow, completedInWindow]
    refine sum_map_filter_mono _ _ _ store (fun s hs => ?_)
      (fun s hs => participantDuration_nonneg userId s (hdur s hs))
    simp only [Bool.and_eq_true, decide_eq_true_eq, beq_iff_eq] at hs ⊢
    refine ⟨⟨hs.1.1, ?_, ?_⟩, hs.2⟩
    · have := hs.1.2.1
      simp only [dayMs] at this ⊢
      omega
    · have := hs.1.2.2
      simp only [dayMs] at this ⊢
      omega

theorem todayProgress_le_weekProgress_witness :
    ((0 : Int) - 3 * dayMs ≤ 0 ∧ (0 : Int) + dayMs ≤ 0 - 3 * dayMs + 7 * dayMs) ∧
    (buildDashboard 4 none [] [] [⟨1, [⟨4, some 12⟩], 50, "completed"⟩] 0 3).todayProgress
      ≤ (buildDashboard 4 none [] [] [⟨1, [⟨4, some 12⟩], 50, "completed"⟩] 0 3).weekProgress :=
  todayProgress_le_weekProgress 4 none [] [] [⟨1, [⟨4, some 12⟩], 50, "completed"⟩]
    0 3 (by norm_num) (by norm_num) (by decide)
